import Mathlib

/-!
# Verification of the `bancodedados` vector-database core

Shallow embedding of the repository's core (storage.py, index.py,
vector_db.py, image_storage.py, multimodal_db.py) together with proofs
about it.

Modelling conventions:
* Python floats are idealized as rationals (`ℚ`).
* `math.sqrt` / `np.sqrt` / the square root hidden inside `np.linalg.norm`
  and `np.std` are not rational-valued, so they are abstracted as an explicit
  function parameter `sq : ℚ → ℚ`; concrete evaluations instantiate `sq`
  with `sqW` below, which agrees with the real square root on the
  perfect-square inputs they reach.
* Python exceptions (in particular `ZeroDivisionError` raised by `x / 0.0`
  on plain floats) are modelled by `Option`: `none` means the operation
  raised.  NumPy float division by zero does not raise but produces
  NaN/inf; that outcome is likewise modelled by `none` (a marker for "the
  result is not a (rational) number"), with the difference recorded in the
  doc comments.
* Python `dict` metadata is modelled as an association list
  `List (String × String)`; an absent `"metadata"` key is the empty list.
* The on-disk JSON file together with the `Storage`/`ImageStorage` cache
  (which `save` always rewrites to the saved value, so it never goes stale)
  is modelled as a plain `List` of records.  The *read cache* of
  `Index` / `MultimodalDB` (`_vectors_cache` / `_data_cache`), which is the
  cache the specification's coherency invariant is about, is modelled
  explicitly as an `Option (List _)` state component.
-/

namespace BancoDeDados

/-- A record of the textual database (storage.py `Storage.add`):
`{"text": ..., "embedding": ..., "metadata": ...}`.  Absent metadata is
modelled as `[]`. -/
structure Record where
  text : String
  embedding : List ℚ
  metadata : List (String × String)
deriving DecidableEq

/-- `sum(a*b for a, b in zip(v1, v2))` (index.py line 7).  Note that
Python's `zip` truncates to the shorter of the two vectors. -/
def dotList (v1 v2 : List ℚ) : ℚ :=
  ((v1.zip v2).map (fun p => p.1 * p.2)).sum

/-- `sum(a*a for a in v)` — the quantity under the square root in
`norm1`/`norm2` (index.py lines 8–9). -/
def sumSq (v : List ℚ) : ℚ :=
  (v.map (fun a => a * a)).sum

/-- `cosine_similarity` (index.py lines 5–10):
`dot / (norm1 * norm2)` with `norm_i = math.sqrt(sum of squares)`.
The division is written unguarded in the source; Python raises
`ZeroDivisionError` exactly when `norm1 * norm2 == 0`, which is modelled
by `none`. -/
def cosine_similarity (sq : ℚ → ℚ) (v1 v2 : List ℚ) : Option ℚ :=
  let dot := dotList v1 v2
  let norm1 := sq (sumSq v1)
  let norm2 := sq (sumSq v2)
  if norm1 * norm2 = 0 then none else some (dot / (norm1 * norm2))

/-- The value `cosine_similarity` yields whenever its denominator is
nonzero (Lean's total division makes this a convenient total companion
function; it is only ever related to the code under a nonzero-denominator
hypothesis). -/
def cosVal (sq : ℚ → ℚ) (v1 v2 : List ℚ) : ℚ :=
  dotList v1 v2 / (sq (sumSq v1) * sq (sumSq v2))

/-- `cosine_similarity` (multimodal_db.py lines 12–14):
`float(np.dot(v1, v2) / (np.linalg.norm(v1) * np.linalg.norm(v2)))`.
NumPy float division by zero does not raise; it produces NaN (or ±inf),
which is not a rational value and is modelled by `none`. -/
def np_cosine_similarity (sq : ℚ → ℚ) (v1 v2 : List ℚ) : Option ℚ :=
  if sq (sumSq v1) * sq (sumSq v2) = 0 then none
  else some (dotList v1 v2 / (sq (sumSq v1) * sq (sumSq v2)))

/-! ## Text normalization and keywords (index.py lines 13–39) -/

/-- Python's regex class `\w` (ASCII idealization): letters, digits, `_`. -/
def isWordChar (c : Char) : Bool :=
  c.isAlphanum || c = '_'

/-- `re.sub(r'\s+', ' ', text)`: collapse every maximal whitespace run to a
single space. -/
def collapseWs : List Char → List Char
  | [] => []
  | [c] => [if c.isWhitespace then ' ' else c]
  | c :: c2 :: rest =>
    if c.isWhitespace && c2.isWhitespace then collapseWs (c2 :: rest)
    else (if c.isWhitespace then ' ' else c) :: collapseWs (c2 :: rest)

/-- `str.strip()` after whitespace collapsing (only `' '` can remain). -/
def stripChars (s : List Char) : List Char :=
  ((s.dropWhile (fun c => c = ' ')).reverse.dropWhile (fun c => c = ' ')).reverse

/-- `normalize_text` (index.py lines 13–23): lower-case, replace characters
outside `\w` and `\s` by a space, collapse whitespace, strip. -/
def normalize_text (text : String) : String :=
  let lowered := text.data.map Char.toLower
  let subbed := lowered.map (fun c => if isWordChar c || c.isWhitespace then c else ' ')
  String.mk (stripChars (collapseWs subbed))

/-- `str.split()` (no separator): split on whitespace runs, no empty
pieces.  `acc` collects the characters of the current word, reversed. -/
def splitWsAux : List Char → List Char → List String
  | [], acc => if acc = [] then [] else [String.mk acc.reverse]
  | c :: rest, acc =>
    if c.isWhitespace then
      if acc = [] then splitWsAux rest []
      else String.mk acc.reverse :: splitWsAux rest []
    else splitWsAux rest (c :: acc)

def splitWs (s : String) : List String :=
  splitWsAux s.data []

/-- The stop-word set of `extract_keywords` (index.py lines 31–35).
(The Python set literal lists `'a'` twice; sets deduplicate.) -/
def stop_words : List String :=
  ["o", "a", "de", "da", "do", "e", "é", "em", "um", "uma", "os", "as",
   "para", "com", "por", "no", "na", "dos", "das", "ao", "à",
   "the", "is", "are", "in", "of", "and", "to", "an"]

/-- `extract_keywords` (index.py lines 26–39): words of the normalized
text that are longer than 2 characters and not stop words, as a set. -/
def extract_keywords (text : String) : Finset String :=
  ((splitWs (normalize_text text)).filter
    (fun w => decide (2 < w.length) && !(stop_words.contains w))).toFinset

/-! ## Dynamic threshold and boosting (index.py lines 65–101) -/

/-- `np.mean` over a score list (idealized over ℚ). -/
def listMean (l : List ℚ) : ℚ :=
  l.sum / (l.length : ℚ)

/-- `np.std` (population standard deviation, `ddof = 0`):
square root of the mean squared deviation. -/
def listStd (sq : ℚ → ℚ) (l : List ℚ) : ℚ :=
  sq (listMean (l.map (fun x => (x - listMean l) ^ 2)))

/-- `Index._calculate_dynamic_threshold` (index.py lines 65–79):
`self.threshold` on an empty list, otherwise
`min(max(0.2, mean - 0.5 * std), 0.6)`. -/
def calculate_dynamic_threshold (sq : ℚ → ℚ) (threshold : ℚ) (similarities : List ℚ) : ℚ :=
  if similarities = [] then threshold
  else
    let mean := listMean similarities
    let std := listStd sq similarities
    let dynamic := max (1/5) (mean - 1/2 * std)
    min dynamic (3/5)

/-- The threshold `Index.search` uses (index.py lines 132–135):
the dynamic one when `use_dynamic_threshold` is set, else the configured
static `self.threshold`. -/
def Index.searchThreshold (sq : ℚ → ℚ) (threshold0 : ℚ) (use_dynamic : Bool)
    (similarities : List ℚ) : ℚ :=
  if use_dynamic then calculate_dynamic_threshold sq threshold0 similarities else threshold0

/-- Modelled from the spec: `clamp(v, lower_bound, upper_bound)` as used in
the specification's threshold formula (§4.2 step 3). -/
def clamp_spec (x lo hi : ℚ) : ℚ :=
  max lo (min x hi)

/-- `Index._apply_boosting` (index.py lines 81–101): Jaccard overlap of the
keyword sets times 0.15, added to the base score and capped at 1.0; the
base score is returned unchanged when either keyword set is empty. -/
def apply_boosting (query text : String) (base_score : ℚ) : ℚ :=
  let query_keywords := extract_keywords query
  let text_keywords := extract_keywords text
  if query_keywords = ∅ ∨ text_keywords = ∅ then base_score
  else
    let overlap : ℕ := (query_keywords ∩ text_keywords).card
    let total : ℕ := (query_keywords ∪ text_keywords).card
    if total = 0 then base_score
    else
      let boost : ℚ := ((overlap : ℚ) / (total : ℚ)) * (3/20)
      min 1 (base_score + boost)

/-! ## Search (index.py lines 103–176) -/

/-- One entry of the result list built by `Index.search`
(index.py lines 165–170). -/
structure SearchResult where
  score : ℚ
  text : String
  original_score : ℚ
  metadata : List (String × String)
deriving DecidableEq

/-- The similarity pass of `Index.search` (index.py lines 127–130): the
cosine similarity of the query against every record, in order; the first
`ZeroDivisionError` aborts the whole call (`none`). -/
def similarityList (sq : ℚ → ℚ) (query_emb : List ℚ) : List Record → Option (List ℚ)
  | [] => some []
  | item :: rest =>
    match cosine_similarity sq query_emb item.embedding with
    | none => none
    | some score =>
      match similarityList sq query_emb rest with
      | none => none
      | some scores => some (score :: scores)

/-- The result-collection loop of `Index.search` (index.py lines 138–172):
skip below-threshold and below-`min_relevance` scores, skip records whose
normalized text was already emitted (`seen`), boost when the flag is set
and `query_text` is truthy (non-`None`, non-empty). -/
def collectResults (apply_boost : Bool) (query_text : Option String)
    (threshold min_relevance : ℚ) :
    List (Record × ℚ) → Finset String → List SearchResult
  | [], _ => []
  | (item, score) :: rest, seen =>
    if score < threshold then
      collectResults apply_boost query_text threshold min_relevance rest seen
    else if score < min_relevance then
      collectResults apply_boost query_text threshold min_relevance rest seen
    else
      let text_norm := normalize_text item.text
      if text_norm ∈ seen then
        collectResults apply_boost query_text threshold min_relevance rest seen
      else
        let boosted :=
          if apply_boost ∧ query_text.getD "" ≠ "" then
            apply_boosting (query_text.getD "") item.text score
          else score
        { score := boosted, text := item.text, original_score := score,
          metadata := item.metadata } ::
          collectResults apply_boost query_text threshold min_relevance rest
            (insert text_norm seen)

/-- Stable insertion for a descending sort by `key`: an element goes after
every earlier element whose key is `≥` its own. -/
def insertByDesc {α : Type} (key : α → ℚ) (x : α) : List α → List α
  | [] => [x]
  | y :: ys => if key x < key y then y :: insertByDesc key x ys else x :: y :: ys

/-- `results.sort(reverse=True, key=...)` (index.py line 175,
multimodal_db.py line 192): Python's sort is stable, so this is a stable
descending sort by the key; modelled as a stable insertion sort. -/
def sortByDesc {α : Type} (key : α → ℚ) (l : List α) : List α :=
  l.foldr (insertByDesc key) []

/-- The body of `Index.search` (index.py lines 103–176) once the data has
been loaded: empty data short-circuits to `[]` before any similarity or
threshold computation; otherwise all similarities are computed, the
threshold is fixed from the full similarity list, the collection loop
runs, and the sorted results are cut to `top_k`. -/
def Index.searchData (sq : ℚ → ℚ) (threshold0 : ℚ) (data : List Record)
    (query_emb : List ℚ) (top_k : ℕ) (query_text : Option String)
    (use_dynamic_threshold : Bool) (apply_boost : Bool) (min_relevance : ℚ) :
    Option (List SearchResult) :=
  if data = [] then some []
  else
    match similarityList sq query_emb data with
    | none => none
    | some similarities =>
      let threshold :=
        Index.searchThreshold sq threshold0 use_dynamic_threshold similarities
      let results :=
        collectResults apply_boost query_text threshold min_relevance
          (data.zip similarities) ∅
      some ((sortByDesc SearchResult.score results).take top_k)

/-- The mutable state of an `Index` over its `Storage` (index.py lines
50–54): the authoritative stored collection (`Storage` keeps its own cache
coherent, since `save` rewrites it) plus the index read cache
`_data_cache`/`_vectors_cache` (`none` = invalidated). -/
structure IndexState where
  data : List Record
  cache : Option (List Record)
deriving DecidableEq

/-- `Index._load_vectors` (index.py lines 56–63): return the cached
collection when present, otherwise load from storage and populate the
cache. -/
def Index.loadVectors (s : IndexState) : List Record × IndexState :=
  match s.cache with
  | some d => (d, s)
  | none => (s.data, { s with cache := some s.data })

/-- `Index.search` (index.py lines 103–176) including the cache read. -/
def Index.search (sq : ℚ → ℚ) (threshold0 : ℚ) (s : IndexState)
    (query_emb : List ℚ) (top_k : ℕ) (query_text : Option String)
    (use_dynamic_threshold : Bool) (apply_boost : Bool) (min_relevance : ℚ) :
    Option (List SearchResult) × IndexState :=
  let loaded := Index.loadVectors s
  (Index.searchData sq threshold0 loaded.1 query_emb top_k query_text
      use_dynamic_threshold apply_boost min_relevance,
    loaded.2)

/-- `Index.invalidate_cache` (index.py lines 178–181). -/
def Index.invalidate_cache (s : IndexState) : IndexState :=
  { s with cache := none }

/-! ## Storage and VectorDB (storage.py, vector_db.py) -/

/-- `Storage.add` (storage.py lines 34–55): load, append the record, save.
(`save` rewrites the whole file; `metadata = []` models the absent key.) -/
def Storage.add (data : List Record) (text : String) (embedding : List ℚ)
    (metadata : List (String × String)) : List Record :=
  data ++ [{ text := text, embedding := embedding, metadata := metadata }]

/-- `VectorDB.exists_similar` (vector_db.py lines 33–54): scan the stored
collection in order; the first record whose cosine similarity to `vector`
is `≥ threshold` short-circuits the scan with
`(True, score, item["text"])`; no match yields `(False, None, None)`.
A `ZeroDivisionError` from the cosine propagates (`none`). -/
def VectorDB.exists_similar (sq : ℚ → ℚ) (data : List Record) (vector : List ℚ)
    (threshold : ℚ) : Option (Bool × Option ℚ × Option String) :=
  match data with
  | [] => some (false, none, none)
  | item :: rest =>
    match cosine_similarity sq vector item.embedding with
    | none => none
    | some score =>
      if threshold ≤ score then some (true, some score, some item.text)
      else VectorDB.exists_similar sq rest vector threshold

/-- `VectorDB.add` (vector_db.py lines 56–100).  The embedding produced by
the external `Embeddings.encode` collaborator is taken as the input `emb`
(the computed `text_normalized` of line 73 is dead code in the source).
With `check_duplicates` set, a similar existing record makes `add` return
`False` without touching the store or the cache; otherwise the record is
appended (`Storage.add`) and the index cache invalidated. -/
def VectorDB.add (sq : ℚ → ℚ) (s : IndexState) (text : String) (emb : List ℚ)
    (metadata : List (String × String)) (check_duplicates : Bool)
    (duplicate_threshold : ℚ) : Option (Bool × IndexState) :=
  if check_duplicates then
    match VectorDB.exists_similar sq s.data emb duplicate_threshold with
    | none => none
    | some r =>
      if r.1 then some (false, s)
      else
        some (true, { data := Storage.add s.data text emb metadata, cache := none })
  else
    some (true, { data := Storage.add s.data text emb metadata, cache := none })

/-- `VectorDB.search` (vector_db.py lines 102–134): embed the query text
(external collaborator, taken as input `query_emb`) and delegate to
`Index.search` with `query_text = query`. -/
def VectorDB.search (sq : ℚ → ℚ) (threshold0 : ℚ) (s : IndexState)
    (query_emb : List ℚ) (query : String) (top_k : ℕ)
    (use_dynamic_threshold : Bool) (apply_boost : Bool) (min_relevance : ℚ) :
    Option (List SearchResult) × IndexState :=
  Index.search sq threshold0 s query_emb top_k (some query)
    use_dynamic_threshold apply_boost min_relevance

/-! ## Image storage and MultimodalDB (image_storage.py, multimodal_db.py) -/

/-- A record of the image database (image_storage.py lines 73–81). -/
structure ImageRecord where
  image_path : String
  absolute_path : String
  filename : String
  embedding : List ℚ
  metadata : List (String × String)
deriving DecidableEq

/-- Python `dict.update(new)` on association lists: keys of `patch`
overwrite, keys only in `d` are preserved, new keys are added (only the
key-to-value mapping is relevant to the claims; `List.lookup` reads it). -/
def dict_update (d patch : List (String × String)) : List (String × String) :=
  (d.filter (fun kv => (patch.lookup kv.1).isNone)) ++ patch

/-- `ImageStorage.delete` (image_storage.py lines 118–129): filter out
every record with the given filename; save and return `True` only when
something was removed. -/
def ImageStorage.delete (data : List ImageRecord) (filename : String) :
    Bool × List ImageRecord :=
  let new_data := data.filter (fun item => item.filename ≠ filename)
  if new_data.length < data.length then (true, new_data) else (false, data)

/-- `ImageStorage.update_metadata` (image_storage.py lines 131–148): walk
the records in order; the first one whose filename matches gets its
metadata dict updated (created as `{}` first when absent — the empty
association list) and the loop breaks; returns whether a match was found
(only then does the save happen; either way the list content returned
here is what the store then holds). -/
def ImageStorage.update_metadata (data : List ImageRecord) (filename : String)
    (new_metadata : List (String × String)) : Bool × List ImageRecord :=
  match data with
  | [] => (false, [])
  | item :: rest =>
    if item.filename = filename then
      (true, { item with metadata := dict_update item.metadata new_metadata } :: rest)
    else
      let r := ImageStorage.update_metadata rest filename new_metadata
      (r.1, item :: r.2)

/-- One entry of the result list of `MultimodalDB.search_by_text`
(multimodal_db.py lines 184–189). -/
structure ImageSearchResult where
  score : ℚ
  image_path : String
  filename : String
  metadata : List (String × String)
deriving DecidableEq

/-- The mutable state of a `MultimodalDB` (multimodal_db.py lines 36–38):
the stored collection (the `ImageStorage` cache stays coherent, `save`
rewrites it) plus the read cache `_vectors_cache`/`_data_cache`
(`none` = invalidated). -/
structure MultimodalDBState where
  storage : List ImageRecord
  cache : Option (List ImageRecord)
deriving DecidableEq

/-- `MultimodalDB._load_vectors` (multimodal_db.py lines 43–50). -/
def MultimodalDB.load_vectors (s : MultimodalDBState) :
    List ImageRecord × MultimodalDBState :=
  match s.cache with
  | some d => (d, s)
  | none => (s.storage, { s with cache := some s.storage })

/-- The similarity pass of `MultimodalDB.search_by_text` (multimodal_db.py
lines 176–189): the NumPy cosine of the text embedding against every
record, in order (a NaN outcome is modelled as aborting, `none`). -/
def imageSimilarityList (sq : ℚ → ℚ) (text_embedding : List ℚ) :
    List ImageRecord → Option (List ℚ)
  | [] => some []
  | item :: rest =>
    match np_cosine_similarity sq text_embedding item.embedding with
    | none => none
    | some score =>
      match imageSimilarityList sq text_embedding rest with
      | none => none
      | some scores => some (score :: scores)

/-- The body of `MultimodalDB.search_by_text` (multimodal_db.py lines
149–194) once the vectors are loaded: empty cache short-circuits to `[]`;
the text embedding from the external CLIP collaborator is the input
`text_embedding`; every record is scored, sub-`min_score` records are
skipped, and the stable descending sort is cut to `top_k`. -/
def MultimodalDB.search_by_text_data (sq : ℚ → ℚ) (data : List ImageRecord)
    (text_embedding : List ℚ) (top_k : ℕ) (min_score : ℚ) :
    Option (List ImageSearchResult) :=
  if data = [] then some []
  else
    match imageSimilarityList sq text_embedding data with
    | none => none
    | some scores =>
      let results :=
        ((data.zip scores).filter (fun p => !decide (p.2 < min_score))).map
          (fun p =>
            { score := p.2, image_path := p.1.image_path,
              filename := p.1.filename, metadata := p.1.metadata })
      some ((sortByDesc ImageSearchResult.score results).take top_k)

/-- `MultimodalDB.search_by_text` (multimodal_db.py lines 149–194)
including the cache read. -/
def MultimodalDB.search_by_text (sq : ℚ → ℚ) (s : MultimodalDBState)
    (text_embedding : List ℚ) (top_k : ℕ) (min_score : ℚ) :
    Option (List ImageSearchResult) × MultimodalDBState :=
  let loaded := MultimodalDB.load_vectors s
  (MultimodalDB.search_by_text_data sq loaded.1 text_embedding top_k min_score,
    loaded.2)

/-- `MultimodalDB.remove_image` (multimodal_db.py lines 273–281): delegate
to `ImageStorage.delete`; invalidate the read cache only on success. -/
def MultimodalDB.remove_image (s : MultimodalDBState) (filename : String) :
    Bool × MultimodalDBState :=
  let r := ImageStorage.delete s.storage filename
  if r.1 then (true, { storage := r.2, cache := none })
  else (false, { s with storage := r.2 })

/-- `MultimodalDB.update_image_info` (multimodal_db.py lines 283–291):
delegate to `ImageStorage.update_metadata`; invalidate the read cache only
on success. -/
def MultimodalDB.update_image_info (s : MultimodalDBState) (filename : String)
    (extra_metadata : List (String × String)) : Bool × MultimodalDBState :=
  let r := ImageStorage.update_metadata s.storage filename extra_metadata
  if r.1 then (true, { storage := r.2, cache := none })
  else (false, { s with storage := r.2 })

/-- A concrete instantiation of the abstract square-root parameter `sq`,
used by the closed witness computations: it agrees with the real square
root on the perfect squares those computations reach (0, 1, 9, 25) and is
arbitrary elsewhere. -/
def sqW (q : ℚ) : ℚ :=
  if q = 0 then 0 else if q = 1 then 1 else if q = 9 then 3 else if q = 25 then 5 else 0

/-! ## Helper lemmas -/

theorem dotList_truncates (v1 : List ℚ) : ∀ v2 : List ℚ,
    dotList v1 v2 = dotList (v1.take v2.length) (v2.take v1.length) := by
  induction v1 with
  | nil => intro v2; simp [dotList]
  | cons a v1 ih =>
    intro v2
    cases v2 with
    | nil => simp [dotList]
    | cons b v2 =>
      simp only [dotList, List.zip_cons_cons, List.map_cons, List.sum_cons,
        List.length_cons, List.take_succ_cons]
      have := ih v2
      simp only [dotList] at this
      rw [this]

theorem cosine_similarity_eq_cosVal (sq : ℚ → ℚ) (v1 v2 : List ℚ)
    (h : sq (sumSq v1) * sq (sumSq v2) ≠ 0) :
    cosine_similarity sq v1 v2 = some (cosVal sq v1 v2) := by
  simp [cosine_similarity, cosVal, h]

theorem min_max_eq_clamp (x : ℚ) :
    min (max (1/5) x) (3/5) = clamp_spec x (1/5) (3/5) := by
  unfold clamp_spec
  rcases le_total x (1/5) with h1 | h1 <;> rcases le_total x (3/5) with h2 | h2 <;>
    simp [min_def, max_def] <;> split_ifs <;> linarith

theorem similarityList_length (sq : ℚ → ℚ) (query_emb : List ℚ) :
    ∀ (data : List Record) (scores : List ℚ),
      similarityList sq query_emb data = some scores → scores.length = data.length := by
  intro data
  induction data with
  | nil => intro scores h; simp [similarityList] at h; simp [← h]
  | cons item rest ih =>
    intro scores h
    rw [similarityList] at h
    cases hc : cosine_similarity sq query_emb item.embedding with
    | none => rw [hc] at h; cases h
    | some s =>
      rw [hc] at h
      cases hr : similarityList sq query_emb rest with
      | none => rw [hr] at h; cases h
      | some ss =>
        rw [hr] at h
        cases h
        simp [ih ss hr]

/-! ## Claims -/

/-- C1: the claim demands that the cosine-similarity primitive be guarded
against zero-norm vectors (failing gracefully or returning 0, never
performing an unguarded division by zero).  The code performs exactly the
unguarded division: at the failing input `v1 = [0.0]`, `v2 = [1.0]` the
denominator `norm1 * norm2` is 0, so index.py's version raises
`ZeroDivisionError` from the division itself and multimodal_db.py's NumPy
version returns NaN (both modelled as `none`); neither is defined as 0. -/
theorem c1_zero_norm_hits_unguarded_division :
    sqW (sumSq [(0 : ℚ)]) * sqW (sumSq [(1 : ℚ)]) = 0
    ∧ cosine_similarity sqW [0] [1] = none
    ∧ np_cosine_similarity sqW [0] [1] = none := by
  refine ⟨?_, ?_, ?_⟩ <;> norm_num [cosine_similarity, np_cosine_similarity, sumSq, sqW]

/-- C2 counterexample: a query of length 1 against a stored embedding of
length 2 does not fail with any dimension error: `zip` silently truncates,
and search returns the record with the nonzero score
`(3*3) / (sqrt 9 * sqrt 25) = 3/5` computed from the truncated dot
product (the norms still range over the full vectors). -/
theorem c2_counterexample :
    ([(3 : ℚ)] : List ℚ).length ≠ ([(3 : ℚ), 4] : List ℚ).length
    ∧ Index.searchData sqW (45/100)
        [{ text := "a", embedding := [3, 4], metadata := [] }] [3] 3 none false false 0
      = some [{ score := 3/5, text := "a", original_score := 3/5, metadata := [] }]
    ∧ (3 : ℚ)/5 ≠ 0 := by
  refine ⟨by simp, ?_, by norm_num⟩
  norm_num [Index.searchData, similarityList, cosine_similarity, dotList, sumSq, sqW,
    Index.searchThreshold, collectResults, sortByDesc, insertByDesc, List.foldr]

/-- C2 amended: `search` performs no dimension check at all.  The cosine
primitive zips the two vectors, silently truncating to the shorter length
(while the norms still range over the full vectors), and it fails only
when a norm product is zero — never because of a length mismatch. -/
theorem c2_amended_silent_truncation (sq : ℚ → ℚ) (v1 v2 : List ℚ) :
    dotList v1 v2 = dotList (v1.take v2.length) (v2.take v1.length)
    ∧ (cosine_similarity sq v1 v2 = none ↔ sq (sumSq v1) * sq (sumSq v2) = 0) := by
  refine ⟨dotList_truncates v1 v2, ?_⟩
  by_cases h : sq (sumSq v1) * sq (sumSq v2) = 0 <;> simp [cosine_similarity, h]

/-- C9: on the empty collection, `search` short-circuits to the empty
result list for every query and configuration, before any similarity or
threshold computation; independently, the dynamic-threshold helper guards
the empty score list and returns the configured default without touching
mean or standard deviation. -/
theorem c9_empty_collection_search (sq : ℚ → ℚ) (threshold0 : ℚ) (query_emb : List ℚ)
    (top_k : ℕ) (query_text : Option String) (dyn boost : Bool) (min_relevance : ℚ) :
    Index.searchData sq threshold0 [] query_emb top_k query_text dyn boost min_relevance
      = some []
    ∧ calculate_dynamic_threshold sq threshold0 [] = threshold0 := by
  exact ⟨by simp [Index.searchData], by simp [calculate_dynamic_threshold]⟩

/-- C10: with `check_duplicates=False`, `add` never consults the
similarity scan: for every state (including one already holding an
identical record) it appends the new record, invalidates the cache, and
returns `True`.  The right-hand side mentions neither `sq` nor the
duplicate threshold, so no similarity computation can influence the
outcome. -/
theorem c10_add_without_duplicate_check (sq : ℚ → ℚ) (s : IndexState) (text : String)
    (emb : List ℚ) (md : List (String × String)) (thr : ℚ) :
    VectorDB.add sq s text emb md false thr
      = some (true,
          { data := s.data ++ [{ text := text, embedding := emb, metadata := md }],
            cache := none }) := by
  simp [VectorDB.add, Storage.add]

/-- C3: in adaptive mode, the acceptance threshold `Index.search` uses
(`Index.searchThreshold`, applied inside `Index.searchData` to the full
similarity list) equals `mean - 0.5 * std` clamped to `[0.2, 0.6]` for
every non-empty score list; and the similarity list it is computed from
has one score per stored record — all records, before any filtering. -/
theorem c3_adaptive_threshold_is_clamped (sq : ℚ → ℚ) (threshold0 : ℚ) (sims : List ℚ)
    (h : sims ≠ []) :
    Index.searchThreshold sq threshold0 true sims
      = clamp_spec (listMean sims - 1/2 * listStd sq sims) (1/5) (3/5)
    ∧ ∀ (query_emb : List ℚ) (data : List Record) (scores : List ℚ),
        similarityList sq query_emb data = some scores → scores.length = data.length := by
  constructor
  · simp only [Index.searchThreshold, calculate_dynamic_threshold, if_neg h, if_true]
    exact min_max_eq_clamp _
  · exact fun qe data scores hs => similarityList_length sq qe data scores hs

/-- Witness for C3 at the concrete score list `[1/2]`. -/
theorem c3_witness :
    ([(1 : ℚ)/2] : List ℚ) ≠ []
    ∧ (Index.searchThreshold sqW (45/100) true [1/2]
        = clamp_spec (listMean [1/2] - 1/2 * listStd sqW [1/2]) (1/5) (3/5)
      ∧ ∀ (query_emb : List ℚ) (data : List Record) (scores : List ℚ),
          similarityList sqW query_emb data = some scores → scores.length = data.length) :=
  ⟨by simp, c3_adaptive_threshold_is_clamped sqW (45/100) [1/2] (by simp)⟩

/-- C4: when both keyword sets are non-empty the boosted score is exactly
the cosine score plus `(|intersection| / |union|) * 0.15`, capped at 1.0;
consequently it never exceeds `min(1, original_score + 0.15)`. -/
theorem c4_lexical_boost (query text : String) (base : ℚ)
    (hq : extract_keywords query ≠ ∅) (ht : extract_keywords text ≠ ∅) :
    apply_boosting query text base
      = min 1 (base +
          (((extract_keywords query ∩ extract_keywords text).card : ℚ) /
            ((extract_keywords query ∪ extract_keywords text).card : ℚ)) * (3/20))
    ∧ apply_boosting query text base ≤ min 1 (base + 3/20) := by
  have hu : (extract_keywords query ∪ extract_keywords text).card ≠ 0 := by
    simp only [ne_eq, Finset.card_eq_zero, Finset.union_eq_empty]
    exact fun hc => hq hc.1
  have heq : apply_boosting query text base
      = min 1 (base +
          (((extract_keywords query ∩ extract_keywords text).card : ℚ) /
            ((extract_keywords query ∪ extract_keywords text).card : ℚ)) * (3/20)) := by
    simp [apply_boosting, hq, ht, hu]
  refine ⟨heq, ?_⟩
  rw [heq]
  have hle : ((extract_keywords query ∩ extract_keywords text).card : ℚ) /
      ((extract_keywords query ∪ extract_keywords text).card : ℚ) ≤ 1 := by
    rw [div_le_one (by positivity)]
    exact_mod_cast Finset.card_le_card Finset.inter_subset_union
  have hnn : 0 ≤ ((extract_keywords query ∩ extract_keywords text).card : ℚ) /
      ((extract_keywords query ∪ extract_keywords text).card : ℚ) := by positivity
  have hb : (((extract_keywords query ∩ extract_keywords text).card : ℚ) /
      ((extract_keywords query ∪ extract_keywords text).card : ℚ)) * (3/20) ≤ 3/20 := by
    nlinarith
  exact min_le_min le_rfl (by linarith)

/-- Witness for C4: the spec's Scenario A pair — query "independent pets"
against the stored text "cats are independent pets" (keyword sets
`{independent, pets}` and `{cats, independent, pets}`). -/
theorem c4_witness :
    extract_keywords "independent pets" ≠ ∅
    ∧ extract_keywords "cats are independent pets" ≠ ∅
    ∧ (apply_boosting "independent pets" "cats are independent pets" (1/2)
        = min 1 (1/2 +
            (((extract_keywords "independent pets" ∩
                extract_keywords "cats are independent pets").card : ℚ) /
              ((extract_keywords "independent pets" ∪
                extract_keywords "cats are independent pets").card : ℚ)) * (3/20))
        ∧ apply_boosting "independent pets" "cats are independent pets" (1/2)
          ≤ min 1 (1/2 + 3/20)) :=
  ⟨by decide, by decide,
    c4_lexical_boost "independent pets" "cats are independent pets" (1/2)
      (by decide) (by decide)⟩

theorem exists_similar_eq_find (sq : ℚ → ℚ) (v : List ℚ) (thr : ℚ) :
    ∀ data : List Record,
      (∀ r ∈ data, sq (sumSq v) * sq (sumSq r.embedding) ≠ 0) →
      VectorDB.exists_similar sq data v thr
        = some (match data.find? (fun r => decide (thr ≤ cosVal sq v r.embedding)) with
            | some r => (true, some (cosVal sq v r.embedding), some r.text)
            | none => (false, none, none)) := by
  intro data
  induction data with
  | nil => intro _; simp [VectorDB.exists_similar]
  | cons item rest ih =>
    intro h
    have hitem := h item (by simp)
    rw [VectorDB.exists_similar, cosine_similarity_eq_cosVal sq v item.embedding hitem]
    by_cases hle : thr ≤ cosVal sq v item.embedding
    · rw [List.find?_cons_of_pos _ (by simpa using hle)]
      simp [hle]
    · rw [List.find?_cons_of_neg _ (by simpa using hle)]
      simp only [if_neg hle]
      exact ih (fun r hr => h r (List.mem_cons_of_mem _ hr))

/-- C5: under well-defined cosines, the duplicate guard
(`VectorDB.exists_similar`) returns exactly the *first* record (in
collection order, `List.find?` short-circuit semantics) whose similarity
to the incoming embedding is `≥ duplicate_threshold`, together with its
content and score; it rejects exactly when such a record exists; on
rejection `VectorDB.add` returns the duplicate outcome `False` and the
state — collection and cache — is left completely unchanged; with no such
record `add` appends and succeeds. -/
theorem c5_duplicate_guard (sq : ℚ → ℚ) (data : List Record) (text : String)
    (v : List ℚ) (md : List (String × String)) (cache : Option (List Record)) (thr : ℚ)
    (hno : ∀ r ∈ data, sq (sumSq v) * sq (sumSq r.embedding) ≠ 0) :
    VectorDB.exists_similar sq data v thr
      = some (match data.find? (fun r => decide (thr ≤ cosVal sq v r.embedding)) with
          | some r => (true, some (cosVal sq v r.embedding), some r.text)
          | none => (false, none, none))
    ∧ ((data.find? (fun r => decide (thr ≤ cosVal sq v r.embedding))).isSome ↔
        ∃ r ∈ data, thr ≤ cosVal sq v r.embedding)
    ∧ ((∃ r ∈ data, thr ≤ cosVal sq v r.embedding) →
        VectorDB.add sq ⟨data, cache⟩ text v md true thr = some (false, ⟨data, cache⟩))
    ∧ ((∀ r ∈ data, cosVal sq v r.embedding < thr) →
        VectorDB.add sq ⟨data, cache⟩ text v md true thr
          = some (true, ⟨data ++ [{ text := text, embedding := v, metadata := md }], none⟩)) := by
  have hfind := exists_similar_eq_find sq v thr data hno
  refine ⟨hfind, by simp [List.find?_isSome], ?_, ?_⟩
  · intro hex
    have hsome : (data.find? (fun r => decide (thr ≤ cosVal sq v r.embedding))).isSome := by
      simp [List.find?_isSome]; exact hex
    cases hf : data.find? (fun r => decide (thr ≤ cosVal sq v r.embedding)) with
    | none => rw [hf] at hsome; simp at hsome
    | some r =>
      rw [hf] at hfind
      simp only [VectorDB.add, if_pos rfl, hfind]
      rfl
  · intro hall
    have hnone : data.find? (fun r => decide (thr ≤ cosVal sq v r.embedding)) = none := by
      apply List.find?_eq_none.mpr
      intro r hr
      simpa using not_le.mpr (hall r hr)
    rw [hnone] at hfind
    simp only [VectorDB.add, if_pos rfl, hfind, Storage.add]
    rfl

/-- Witness for C5: a one-record collection holding "hello world" with
embedding `[1, 0]`; adding the same embedding again with threshold 0.85 is
rejected (self-similarity 1.0) and the state is unchanged. -/
theorem c5_witness :
    (∀ r ∈ ([{ text := "hello world", embedding := [(1 : ℚ), 0], metadata := [] }] : List Record),
        sqW (sumSq [(1 : ℚ), 0]) * sqW (sumSq r.embedding) ≠ 0)
    ∧ (∃ r ∈ ([{ text := "hello world", embedding := [(1 : ℚ), 0], metadata := [] }] : List Record),
        (17 : ℚ)/20 ≤ cosVal sqW [1, 0] r.embedding)
    ∧ VectorDB.add sqW
        ⟨[{ text := "hello world", embedding := [(1 : ℚ), 0], metadata := [] }], none⟩
        "hello world" [1, 0] [] true (17/20)
      = some (false, ⟨[{ text := "hello world", embedding := [(1 : ℚ), 0], metadata := [] }], none⟩) := by
  have hno : ∀ r ∈ ([{ text := "hello world", embedding := [(1 : ℚ), 0], metadata := [] }] : List Record),
      sqW (sumSq [(1 : ℚ), 0]) * sqW (sumSq r.embedding) ≠ 0 := by
    intro r hr
    simp only [List.mem_singleton] at hr
    subst hr
    norm_num [sumSq, sqW]
  have hex : ∃ r ∈ ([{ text := "hello world", embedding := [(1 : ℚ), 0], metadata := [] }] : List Record),
      (17 : ℚ)/20 ≤ cosVal sqW [1, 0] r.embedding := by
    refine ⟨_, List.mem_singleton_self _, ?_⟩
    norm_num [cosVal, dotList, sumSq, sqW]
  exact ⟨hno, hex,
    (c5_duplicate_guard sqW [{ text := "hello world", embedding := [(1 : ℚ), 0], metadata := [] }]
      "hello world" [1, 0] [] none (17/20) hno).2.2.1 hex⟩

theorem lookup_append (k : String) : ∀ xs ys : List (String × String),
    (xs ++ ys).lookup k = ((xs.lookup k).or (ys.lookup k)) := by
  intro xs ys
  induction xs with
  | nil => simp
  | cons kv rest ih =>
    by_cases hk : k = kv.1
    · simp [List.lookup, hk]
    · have hbeq : (k == kv.1) = false := by simpa using hk
      simp only [List.cons_append, List.lookup, hbeq]
      exact ih

theorem lookup_filter_keep (patch : List (String × String)) (k : String) :
    ∀ d : List (String × String),
      (d.filter (fun kv => (patch.lookup kv.1).isNone)).lookup k
        = if (patch.lookup k).isNone then d.lookup k else none := by
  intro d
  induction d with
  | nil => simp
  | cons kv rest ih =>
    cases hp : patch.lookup kv.1 with
    | none =>
      rw [List.filter_cons_of_pos (by simp [hp])]
      by_cases hk : k = kv.1
      · simp [List.lookup, hk, hp]
      · have hbeq : (k == kv.1) = false := by simpa using hk
        simp only [List.lookup, hbeq]
        exact ih
    | some v =>
      rw [List.filter_cons_of_neg (by simp [hp])]
      rw [ih]
      by_cases hk : k = kv.1
      · simp [List.lookup, hk, hp]
      · have hbeq : (k == kv.1) = false := by simpa using hk
        simp [List.lookup, hbeq]

theorem dict_update_lookup (d patch : List (String × String)) (k : String) :
    (dict_update d patch).lookup k = (patch.lookup k).or (d.lookup k) := by
  unfold dict_update
  rw [lookup_append, lookup_filter_keep]
  cases hp : patch.lookup k with
  | none => simp [hp]
  | some v => simp [hp]

/-- C6: `update_metadata` updates exactly the first record whose filename
matches — its metadata dict is merged key-wise (`dict.update` semantics:
patch keys overwrite or are added, untouched keys of the old metadata are
preserved — never a wholesale replacement) — and returns `True`; when no
record matches it returns `False` and the collection is unchanged. -/
theorem c6_update_metadata_merges (pre post : List ImageRecord) (r : ImageRecord)
    (fn : String) (patch : List (String × String))
    (hpre : ∀ x ∈ pre, x.filename ≠ fn) (hr : r.filename = fn) :
    ImageStorage.update_metadata (pre ++ r :: post) fn patch
      = (true, pre ++ { r with metadata := dict_update r.metadata patch } :: post)
    ∧ (∀ k, (dict_update r.metadata patch).lookup k
        = (patch.lookup k).or (r.metadata.lookup k))
    ∧ (∀ data : List ImageRecord, (∀ x ∈ data, x.filename ≠ fn) →
        ImageStorage.update_metadata data fn patch = (false, data)) := by
  refine ⟨?_, fun k => dict_update_lookup r.metadata patch k, ?_⟩
  · induction pre with
    | nil => simp [ImageStorage.update_metadata, hr]
    | cons x rest ih =>
      have hx : x.filename ≠ fn := hpre x (by simp)
      have ih2 := ih (fun y hy => hpre y (List.mem_cons_of_mem _ hy))
      simp only [List.cons_append, ImageStorage.update_metadata, if_neg hx]
      rw [List.append_eq, ih2]
  · intro data
    induction data with
    | nil => intro _; simp [ImageStorage.update_metadata]
    | cons x rest ih =>
      intro h
      have hx : x.filename ≠ fn := h x (by simp)
      have ih2 := ih (fun y hy => h y (List.mem_cons_of_mem _ hy))
      simp [ImageStorage.update_metadata, if_neg hx, ih2]

/-- Witness for C6: the spec's Scenario D — patching
`{"status": "verified"}` onto a record holding `{"tipo": "x"}` yields the
merged `{"tipo": "x", "status": "verified"}`, not a replacement. -/
theorem c6_witness :
    (∀ x ∈ ([] : List ImageRecord), x.filename ≠ "img.png")
    ∧ ({ image_path := "img.png", absolute_path := "/abs/img.png", filename := "img.png",
          embedding := [(1 : ℚ)], metadata := [("tipo", "x")] } : ImageRecord).filename = "img.png"
    ∧ ImageStorage.update_metadata
        [{ image_path := "img.png", absolute_path := "/abs/img.png", filename := "img.png",
            embedding := [(1 : ℚ)], metadata := [("tipo", "x")] }]
        "img.png" [("status", "verified")]
      = (true,
          [{ image_path := "img.png", absolute_path := "/abs/img.png", filename := "img.png",
              embedding := [(1 : ℚ)],
              metadata := dict_update [("tipo", "x")] [("status", "verified")] }])
    ∧ dict_update [("tipo", "x")] [("status", "verified")]
        = [("tipo", "x"), ("status", "verified")] := by
  have h := c6_update_metadata_merges [] []
    { image_path := "img.png", absolute_path := "/abs/img.png", filename := "img.png",
      embedding := [(1 : ℚ)], metadata := [("tipo", "x")] }
    "img.png" [("status", "verified")] (by simp) rfl
  exact ⟨by simp, rfl, by simpa using h.1, by decide⟩

/-- C7: every successful mutation invalidates the read cache, and because
of that the very next search computes from the mutated authoritative
collection, never from a stale cached one.  For every prior state
(with an arbitrary, possibly stale, cache): a successful `VectorDB.add`
leaves `cache = none` and appends the record, so the following search
scores the collection that includes it; a successful
`MultimodalDB.remove_image` leaves `cache = none` and a storage from which
every record with the removed filename is absent, so the following search
scores exactly that storage; likewise for a successful
`MultimodalDB.update_image_info`. -/
theorem c7_mutations_invalidate_cache (sq : ℚ → ℚ) :
    (∀ (s : IndexState) (text : String) (v : List ℚ) (md : List (String × String))
        (cd : Bool) (thr : ℚ) (s' : IndexState),
        VectorDB.add sq s text v md cd thr = some (true, s') →
        s'.cache = none
        ∧ s'.data = s.data ++ [{ text := text, embedding := v, metadata := md }]
        ∧ ∀ (threshold0 : ℚ) (query_emb : List ℚ) (query : String) (top_k : ℕ)
            (dyn boost : Bool) (min_relevance : ℚ),
            (VectorDB.search sq threshold0 s' query_emb query top_k dyn boost min_relevance).1
              = Index.searchData sq threshold0 s'.data query_emb top_k (some query)
                  dyn boost min_relevance)
    ∧ (∀ (ms : MultimodalDBState) (fn : String),
        (MultimodalDB.remove_image ms fn).1 = true →
        (MultimodalDB.remove_image ms fn).2.cache = none
        ∧ (∀ r ∈ (MultimodalDB.remove_image ms fn).2.storage, r.filename ≠ fn)
        ∧ ∀ (te : List ℚ) (top_k : ℕ) (min_score : ℚ),
            (MultimodalDB.search_by_text sq (MultimodalDB.remove_image ms fn).2
                te top_k min_score).1
              = MultimodalDB.search_by_text_data sq
                  (MultimodalDB.remove_image ms fn).2.storage te top_k min_score)
    ∧ (∀ (ms : MultimodalDBState) (fn : String) (patch : List (String × String)),
        (MultimodalDB.update_image_info ms fn patch).1 = true →
        (MultimodalDB.update_image_info ms fn patch).2.cache = none
        ∧ ∀ (te : List ℚ) (top_k : ℕ) (min_score : ℚ),
            (MultimodalDB.search_by_text sq (MultimodalDB.update_image_info ms fn patch).2
                te top_k min_score).1
              = MultimodalDB.search_by_text_data sq
                  (MultimodalDB.update_image_info ms fn patch).2.storage te top_k min_score) := by
  refine ⟨?_, ?_, ?_⟩
  · intro s text v md cd thr s' hadd
    have hs' : s' = { data := Storage.add s.data text v md, cache := none } := by
      cases cd with
      | false =>
        simp only [VectorDB.add, Bool.false_eq_true, if_false, Option.some_inj,
          Prod.mk.injEq, true_and] at hadd
        exact hadd.symm
      | true =>
        rw [VectorDB.add, if_pos rfl] at hadd
        cases hex : VectorDB.exists_similar sq s.data v thr with
        | none => rw [hex] at hadd; cases hadd
        | some r =>
          rw [hex] at hadd
          cases hr : r.1 with
          | true => simp [hr] at hadd
          | false =>
            simp only [hr, Bool.false_eq_true, if_false, Option.some_inj,
              Prod.mk.injEq, true_and] at hadd
            exact hadd.symm
    subst hs'
    refine ⟨rfl, by simp [Storage.add], ?_⟩
    intro t0 qe q tk dyn boost mr
    simp [VectorDB.search, Index.search, Index.loadVectors]
  · intro ms fn hrem
    rcases hdel : ImageStorage.delete ms.storage fn with ⟨b, d⟩
    have hrw : MultimodalDB.remove_image ms fn
        = if b = true then (true, ⟨d, none⟩) else (false, ⟨d, ms.cache⟩) := by
      simp [MultimodalDB.remove_image, hdel]
    cases b with
    | false => rw [hrw] at hrem; simp at hrem
    | true =>
      have hd : d = ms.storage.filter (fun item => item.filename ≠ fn) := by
        unfold ImageStorage.delete at hdel
        simp only [] at hdel
        split at hdel
        · exact (Prod.mk.injEq _ _ _ _).mp hdel |>.2.symm
        · cases (Prod.mk.injEq _ _ _ _).mp hdel |>.1
      rw [hrw]
      simp only [if_pos rfl]
      refine ⟨rfl, ?_, ?_⟩
      · intro r hr
        rw [hd] at hr
        simpa using List.of_mem_filter hr
      · intro te tk msc
        simp [MultimodalDB.search_by_text, MultimodalDB.load_vectors]
  · intro ms fn patch hupd
    rcases hu : ImageStorage.update_metadata ms.storage fn patch with ⟨b, d⟩
    have hrw : MultimodalDB.update_image_info ms fn patch
        = if b = true then (true, ⟨d, none⟩) else (false, ⟨d, ms.cache⟩) := by
      simp [MultimodalDB.update_image_info, hu]
    cases b with
    | false => rw [hrw] at hupd; simp at hupd
    | true =>
      rw [hrw]
      simp only [if_pos rfl]
      refine ⟨rfl, ?_⟩
      intro te tk msc
      simp [MultimodalDB.search_by_text, MultimodalDB.load_vectors]

/-- Witness for C7: a successful unchecked `add` on a state with a (stale)
cache, a successful `remove_image`, and a successful `update_image_info`,
each leaving the read cache invalidated. -/
theorem c7_witness :
    (VectorDB.add sqW ⟨[], some []⟩ "x" [(1 : ℚ)] [] false (17/20)
        = some (true, ⟨[{ text := "x", embedding := [(1 : ℚ)], metadata := [] }], none⟩))
    ∧ ({ data := [{ text := "x", embedding := [(1 : ℚ)], metadata := [] }],
         cache := none } : IndexState).cache = none
    ∧ ((MultimodalDB.remove_image
          ⟨[{ image_path := "img.png", absolute_path := "/abs/img.png",
              filename := "img.png", embedding := [(1 : ℚ)], metadata := [] }],
            some [{ image_path := "img.png", absolute_path := "/abs/img.png",
                    filename := "img.png", embedding := [(1 : ℚ)], metadata := [] }]⟩
          "img.png").1 = true
        ∧ (MultimodalDB.remove_image
            ⟨[{ image_path := "img.png", absolute_path := "/abs/img.png",
                filename := "img.png", embedding := [(1 : ℚ)], metadata := [] }],
              some [{ image_path := "img.png", absolute_path := "/abs/img.png",
                      filename := "img.png", embedding := [(1 : ℚ)], metadata := [] }]⟩
            "img.png").2.cache = none)
    ∧ ((MultimodalDB.update_image_info
          ⟨[{ image_path := "img.png", absolute_path := "/abs/img.png",
              filename := "img.png", embedding := [(1 : ℚ)], metadata := [] }], none⟩
          "img.png" [("status", "ok")]).1 = true
        ∧ (MultimodalDB.update_image_info
            ⟨[{ image_path := "img.png", absolute_path := "/abs/img.png",
                filename := "img.png", embedding := [(1 : ℚ)], metadata := [] }], none⟩
            "img.png" [("status", "ok")]).2.cache = none) := by
  refine ⟨rfl, ?_, ⟨rfl, ?_⟩, ⟨rfl, ?_⟩⟩
  · exact ((c7_mutations_invalidate_cache sqW).1 ⟨[], some []⟩ "x" [(1 : ℚ)] [] false (17/20)
      ⟨[{ text := "x", embedding := [(1 : ℚ)], metadata := [] }], none⟩ rfl).1
  · exact ((c7_mutations_invalidate_cache sqW).2.1
      ⟨[{ image_path := "img.png", absolute_path := "/abs/img.png",
          filename := "img.png", embedding := [(1 : ℚ)], metadata := [] }],
        some [{ image_path := "img.png", absolute_path := "/abs/img.png",
                filename := "img.png", embedding := [(1 : ℚ)], metadata := [] }]⟩
      "img.png" rfl).1
  · exact ((c7_mutations_invalidate_cache sqW).2.2
      ⟨[{ image_path := "img.png", absolute_path := "/abs/img.png",
          filename := "img.png", embedding := [(1 : ℚ)], metadata := [] }], none⟩
      "img.png" [("status", "ok")] rfl).1

theorem length_insertByDesc {α : Type} (key : α → ℚ) (x : α) :
    ∀ l : List α, (insertByDesc key x l).length = l.length + 1 := by
  intro l
  induction l with
  | nil => simp [insertByDesc]
  | cons y ys ih =>
    by_cases h : key x < key y
    · simp [insertByDesc, h, ih]
    · simp [insertByDesc, h]

theorem length_sortByDesc {α : Type} (key : α → ℚ) (l : List α) :
    (sortByDesc key l).length = l.length := by
  induction l with
  | nil => simp [sortByDesc]
  | cons y ys ih =>
    simp only [sortByDesc, List.foldr_cons] at ih ⊢
    rw [length_insertByDesc, ih, List.length_cons]

theorem collect_length_le_insert (b : Bool) (qt : Option String) (thr m : ℚ) :
    ∀ (l : List (Record × ℚ)) (seen : Finset String) (t : String),
      (collectResults b qt thr m l seen).length
        ≤ (collectResults b qt thr m l (insert t seen)).length + 1 := by
  intro l
  induction l with
  | nil => intro seen t; simp [collectResults]
  | cons p rest ih =>
    intro seen t
    obtain ⟨item, score⟩ := p
    by_cases h1 : score < thr
    · simp only [collectResults, if_pos h1]
      exact ih seen t
    · by_cases h2 : score < m
      · simp only [collectResults, if_neg h1, if_pos h2]
        exact ih seen t
      · by_cases h3 : normalize_text item.text ∈ seen
        · have h3i : normalize_text item.text ∈ insert t seen := Finset.mem_insert_of_mem h3
          simp only [collectResults, if_neg h1, if_neg h2, if_pos h3, if_pos h3i]
          exact ih seen t
        · by_cases h4 : normalize_text item.text = t
          · have h4i : normalize_text item.text ∈ insert t seen := by
              rw [h4]; exact Finset.mem_insert_self t seen
            simp only [collectResults, if_neg h1, if_neg h2, if_neg h3, if_pos h4i,
              List.length_cons]
            rw [h4]
          · have h4i : normalize_text item.text ∉ insert t seen := by
              simp [Finset.mem_insert, h3, h4]
            simp only [collectResults, if_neg h1, if_neg h2, if_neg h3, if_neg h4i,
              List.length_cons]
            have hcomm : insert t (insert (normalize_text item.text) seen)
                = insert (normalize_text item.text) (insert t seen) := by
              exact Finset.Insert.comm t (normalize_text item.text) seen
            have := ih (insert (normalize_text item.text) seen) t
            rw [hcomm] at this
            omega

theorem collect_length_mono (b : Bool) (qt : Option String) (thr : ℚ) (m1 m2 : ℚ)
    (hm : m1 ≤ m2) :
    ∀ (l : List (Record × ℚ)) (seen : Finset String),
      (collectResults b qt thr m2 l seen).length
        ≤ (collectResults b qt thr m1 l seen).length := by
  intro l
  induction l with
  | nil => intro seen; simp [collectResults]
  | cons p rest ih =>
    intro seen
    obtain ⟨item, score⟩ := p
    by_cases h1 : score < thr
    · simp only [collectResults, if_pos h1]
      exact ih seen
    · by_cases ha : score < m1
      · have hb : score < m2 := lt_of_lt_of_le ha hm
        simp only [collectResults, if_neg h1, if_pos ha, if_pos hb]
        exact ih seen
      · by_cases hb : score < m2
        · simp only [collectResults, if_neg h1, if_neg ha, if_pos hb]
          by_cases h3 : normalize_text item.text ∈ seen
          · simp only [if_pos h3]
            exact ih seen
          · simp only [if_neg h3, List.length_cons]
            calc (collectResults b qt thr m2 rest seen).length
                ≤ (collectResults b qt thr m2 rest
                    (insert (normalize_text item.text) seen)).length + 1 :=
                  collect_length_le_insert b qt thr m2 rest seen (normalize_text item.text)
              _ ≤ (collectResults b qt thr m1 rest
                    (insert (normalize_text item.text) seen)).length + 1 :=
                  Nat.add_le_add_right (ih (insert (normalize_text item.text) seen)) 1
        · simp only [collectResults, if_neg h1, if_neg ha, if_neg hb]
          by_cases h3 : normalize_text item.text ∈ seen
          · simp only [if_pos h3]
            exact ih seen
          · simp only [if_neg h3, List.length_cons]
            exact Nat.add_le_add_right (ih (insert (normalize_text item.text) seen)) 1

/-- C8: for a fixed collection, query and `top_k`, raising the
`min_relevance` floor never increases the number of results: the
per-record filter passes a subset of the records, the seen-set
deduplication keeps at most one extra record when a lower floor admits an
earlier duplicate, sorting preserves length, and `take top_k` is monotone
in the list length. -/
theorem c8_min_relevance_monotone (sq : ℚ → ℚ) (threshold0 : ℚ) (data : List Record)
    (query_emb : List ℚ) (top_k : ℕ) (query_text : Option String) (dyn boost : Bool)
    (m1 m2 : ℚ) (hm : m1 ≤ m2) (r1 r2 : List SearchResult)
    (h1 : Index.searchData sq threshold0 data query_emb top_k query_text dyn boost m1 = some r1)
    (h2 : Index.searchData sq threshold0 data query_emb top_k query_text dyn boost m2 = some r2) :
    r2.length ≤ r1.length := by
  unfold Index.searchData at h1 h2
  by_cases hd : data = []
  · rw [if_pos hd] at h1 h2
    cases h1; cases h2; simp
  · rw [if_neg hd] at h1 h2
    cases hsim : similarityList sq query_emb data with
    | none => rw [hsim] at h1; cases h1
    | some sims =>
      rw [hsim] at h1 h2
      simp only [Option.some_inj] at h1 h2
      subst h1; subst h2
      rw [List.length_take, List.length_take, length_sortByDesc, length_sortByDesc]
      exact min_le_min le_rfl (collect_length_mono boost query_text
        (Index.searchThreshold sq threshold0 dyn sims) m1 m2 hm (data.zip sims) ∅)

/-- Witness for C8: a two-record collection queried with floors 0 and 1/2;
the higher floor returns one result, the lower floor two. -/
theorem c8_witness :
    (0 : ℚ) ≤ 1/2
    ∧ Index.searchData sqW 0
        [{ text := "a", embedding := [(1 : ℚ), 0], metadata := [] },
         { text := "b", embedding := [(0 : ℚ), 1], metadata := [] }]
        [1, 0] 3 none false false 0
      = some [{ score := 1, text := "a", original_score := 1, metadata := [] },
              { score := 0, text := "b", original_score := 0, metadata := [] }]
    ∧ Index.searchData sqW 0
        [{ text := "a", embedding := [(1 : ℚ), 0], metadata := [] },
         { text := "b", embedding := [(0 : ℚ), 1], metadata := [] }]
        [1, 0] 3 none false false (1/2)
      = some [{ score := 1, text := "a", original_score := 1, metadata := [] }]
    ∧ ([{ score := 1, text := "a", original_score := 1, metadata := [] }] :
          List SearchResult).length
        ≤ ([{ score := 1, text := "a", original_score := 1, metadata := [] },
            { score := 0, text := "b", original_score := 0, metadata := [] }] :
          List SearchResult).length := by
  have h1 : Index.searchData sqW 0
      [{ text := "a", embedding := [(1 : ℚ), 0], metadata := [] },
       { text := "b", embedding := [(0 : ℚ), 1], metadata := [] }]
      [1, 0] 3 none false false 0
      = some [{ score := 1, text := "a", original_score := 1, metadata := [] },
              { score := 0, text := "b", original_score := 0, metadata := [] }] := by
    norm_num [Index.searchData, similarityList, cosine_similarity, dotList, sumSq, sqW,
      Index.searchThreshold, collectResults, sortByDesc, insertByDesc, List.foldr,
      show normalize_text "a" = "a" from rfl, show normalize_text "b" = "b" from rfl,
      (by decide : ("b" : String) ≠ "a")]
    intro h
    simp at h
  have h2 : Index.searchData sqW 0
      [{ text := "a", embedding := [(1 : ℚ), 0], metadata := [] },
       { text := "b", embedding := [(0 : ℚ), 1], metadata := [] }]
      [1, 0] 3 none false false (1/2)
      = some [{ score := 1, text := "a", original_score := 1, metadata := [] }] := by
    norm_num [Index.searchData, similarityList, cosine_similarity, dotList, sumSq, sqW,
      Index.searchThreshold, collectResults, sortByDesc, insertByDesc, List.foldr,
      show normalize_text "a" = "a" from rfl, show normalize_text "b" = "b" from rfl,
      (by decide : ("b" : String) ≠ "a")]
    simp
  exact ⟨by norm_num, h1, h2,
    c8_min_relevance_monotone sqW 0
      [{ text := "a", embedding := [(1 : ℚ), 0], metadata := [] },
       { text := "b", embedding := [(0 : ℚ), 1], metadata := [] }]
      [1, 0] 3 none false false 0 (1/2) (by norm_num) _ _ h1 h2⟩

end BancoDeDados
